import Mathlib

/-!
Shallow embedding of the AI_Document_Analysis ingestion and session pipeline.

Source files modelled:
 - src/core/document_processor.py  (extraction dispatcher and format extractors)
 - src/services/document_service.py (ingestion orchestrator, delete, reads)
 - src/core/database.py            (schema and SQLAlchemy cascade semantics)
 - src/api/routers/query.py        (sessionless query endpoint)
 - src/api/routers/analysis.py     (session creation endpoint)

Python strings are modelled as Lean `String`; Python dicts of known keys as
structures with `Option` fields (`none` = key absent); exceptions as `Except`;
outcomes of third-party parsing libraries (PyPDF2, python-docx, python-pptx,
openpyxl, the email parser, pdf2image) as explicit oracles carried by the
modelled file-system entry, each an `Except String` value (`.error msg` =
the library call raised with message `msg`).
-/

namespace AIDoc

/-- Python `s.startswith(p)`: `p.data` is a character-list pre-segment of `s.data`. -/
def pyStartsWith (s p : String) : Bool := p.data.isPrefixOf s.data

/-- Python `s.endswith(p)`. -/
def pyEndsWith (s p : String) : Bool := p.data.isSuffixOf s.data

/-- Python `os.path.basename`: the segment after the last slash. -/
def pyBasename (p : String) : String := String.mk ((p.data.reverse.takeWhile (fun c => c ≠ '/')).reverse)

/-- Python `content.count C` for a single character: number of occurrences. -/
def pyCountChar (s : String) (c : Char) : Nat := s.data.count c

/-- Model of Python `str.strip()`: remove leading and trailing whitespace. -/
def pyStrip (s : String) : String :=
  String.mk (((s.data.dropWhile Char.isWhitespace).reverse.dropWhile Char.isWhitespace).reverse)

/-- The format extractors of `DocumentProcessor` (document_processor.py). -/
inductive Extractor
  | pdf | docx | pptx | xlsx | email | image | text | generic
  deriving DecidableEq, Repr

/-- Model of `DocumentProcessor.get_mime_type` (document_processor.py lines
146-152): `mimetypes.guess_type` consults the platform extension table; we
embed the relevant rows of that table, defaulting to
`application/octet-stream` when the extension is unknown, exactly as the
source does. The essential property kept is that the result is a function of
the file path alone. -/
def get_mime_type (filename : String) : String :=
  if pyEndsWith filename ".pdf" then "application/pdf"
  else if pyEndsWith filename ".docx" then "application/vnd.openxmlformats-officedocument.wordprocessingml.document"
  else if pyEndsWith filename ".pptx" then "application/vnd.openxmlformats-officedocument.presentationml.presentation"
  else if pyEndsWith filename ".xlsx" then "application/vnd.openxmlformats-officedocument.spreadsheetml.sheet"
  else if pyEndsWith filename ".eml" then "message/rfc822"
  else if pyEndsWith filename ".txt" then "text/plain"
  else if pyEndsWith filename ".csv" then "text/csv"
  else if pyEndsWith filename ".html" then "text/html"
  else if pyEndsWith filename ".png" then "image/png"
  else if pyEndsWith filename ".jpg" then "image/jpeg"
  else "application/octet-stream"

/-- The dispatch chain of `DocumentProcessor.process_document`
(document_processor.py lines 161-178), factored over the MIME string it
branches on. -/
def selectExtractor (mime : String) : Extractor :=
  if mime = "application/pdf" then .pdf
  else if mime = "application/vnd.openxmlformats-officedocument.wordprocessingml.document" then .docx
  else if mime = "application/vnd.openxmlformats-officedocument.presentationml.presentation" then .pptx
  else if mime = "application/vnd.openxmlformats-officedocument.spreadsheetml.sheet" then .xlsx
  else if mime = "message/rfc822" ∨ mime = "application/vnd.ms-outlook" then .email
  else if pyStartsWith mime "image/" then .image
  else if pyStartsWith mime "text/" then .text
  else .generic

/-- Base file metadata as returned by `DocumentProcessor.get_file_info`
(document_processor.py lines 180-198). -/
structure FileInfo where
  file_path : String
  file_name : String
  mime_type : String
  file_size : Nat
  created_time : String
  modified_time : String
  deriving DecidableEq, Repr

/-- Availability flags of the optional parsing libraries
(document_processor.py lines 18-49: `PDF2IMAGE_AVAILABLE`, `DOCX_AVAILABLE`,
`PPTX_AVAILABLE`, `XLSX_AVAILABLE`, `EMAIL_AVAILABLE`). -/
structure Libs where
  pdf2image : Bool
  docx : Bool
  pptx : Bool
  xlsx : Bool
  email : Bool
  deriving DecidableEq, Repr

/-- Parsed email message as produced by the email library boundary:
the four header lookups with `""` defaults, the plain-text body obtained by
the multipart walk of lines 358-364, and the extracted attachments
(filename, saved path, mime type) of lines 369-382. -/
structure EmailData where
  hFrom : String
  hTo : String
  hSubject : String
  hDate : String
  body : String
  attachments : List (String × String × String)
  deriving DecidableEq, Repr

instance {ε α : Type} [DecidableEq ε] [DecidableEq α] : DecidableEq (Except ε α) := fun a b =>
  match a, b with
  | .ok x, .ok y =>
      if h : x = y then .isTrue (by rw [h]) else .isFalse (by intro hc; cases hc; exact h rfl)
  | .error x, .error y =>
      if h : x = y then .isTrue (by rw [h]) else .isFalse (by intro hc; cases hc; exact h rfl)
  | .ok _, .error _ => .isFalse (by intro hc; cases hc)
  | .error _, .ok _ => .isFalse (by intro hc; cases hc)

/-- One stored file as the extractors can observe it: the os-level stat data
plus the outcome of each third-party parsing call on its bytes. -/
structure FileData where
  file_size : Nat
  created_time : String
  modified_time : String
  /-- UTF-8 decoding of the bytes; `none` models `UnicodeDecodeError`. -/
  utf8 : Option String
  /-- Latin-1 decoding of the bytes; total, as in CPython. -/
  latin1 : String
  /-- PyPDF2 page texts in page order (lines 206-219), or a raised message. -/
  pdfPages : Except String (List String)
  /-- pdf2image conversion and save of up to the first three pages
  (lines 232-244): the saved image paths, or a raised message. -/
  pdfImages : Except String (List String)
  /-- python-docx: paragraph texts and table cell texts (lines 258-276). -/
  docxData : Except String (List String × List (List (List String)))
  /-- python-pptx: per slide, the texts of the shapes exposing text
  (lines 291-300). -/
  pptxData : Except String (List (List String))
  /-- openpyxl: per sheet in original order, its name and the rows that
  `iter_rows(values_only=True, max_row=100)` yields, each cell `none` for
  Python `None` or `some s` with `s` the `str()` of the value (lines 318-327). -/
  xlsxData : Except String (List (String × List (List (Option String))))
  /-- email.BytesParser parse of the bytes (lines 345-385). -/
  emailData : Except String EmailData
  deriving DecidableEq, Repr

/-- The extraction result dict: every key any extractor may set, `none`
meaning the key is absent. The six base keys of `get_file_info` are always
set together and are bundled as `info`. -/
structure ExtractResult where
  info : Option FileInfo := none
  error : Option String := none
  text_content : Option String := none
  content : Option String := none
  line_count : Option Nat := none
  page_count : Option Nat := none
  slides : Option (List String) := none
  slide_count : Option Nat := none
  sheets : Option (List (String × List (List (Option String)))) := none
  sheet_count : Option Nat := none
  body : Option String := none
  headers : Option (List (String × String)) := none
  attachments : Option (List (String × String × String)) := none
  attachment_count : Option Nat := none
  paragraph_count : Option Nat := none
  tables : Option (List (List (List String))) := none
  table_count : Option Nat := none
  extracted_images : Option (List String) := none
  num_images_extracted : Option Nat := none
  metadata : Option (List (String × String)) := none
  text_extraction_error : Option String := none
  image_extraction_error : Option String := none
  docx_extraction_error : Option String := none
  pptx_extraction_error : Option String := none
  xlsx_extraction_error : Option String := none
  email_extraction_error : Option String := none
  deriving DecidableEq, Repr

/-- `DocumentProcessor.get_file_info` (lines 180-198) on an existing file:
stat the file and record path, basename, guessed MIME and timestamps. -/
def get_file_info (path : String) (fd : FileData) : FileInfo :=
  { file_path := path
    file_name := pyBasename path
    mime_type := get_mime_type path
    file_size := fd.file_size
    created_time := fd.created_time
    modified_time := fd.modified_time }

/-- The result dict right after `result = self.get_file_info(file_path)`. -/
def baseResult (path : String) (fd : FileData) : ExtractResult :=
  { info := some (get_file_info path fd) }

/-- `DocumentProcessor.process_text` (lines 405-425): UTF-8 read with a
Latin-1 retry on `UnicodeDecodeError`; records `text_content` and
`line_count = content.count("\n") + 1`. -/
def process_text (path : String) (fd : FileData) : ExtractResult :=
  let r := baseResult path fd
  match fd.utf8 with
  | some content =>
      { r with text_content := some content
               line_count := some (pyCountChar content '\n' + 1) }
  | none =>
      { r with text_content := some fd.latin1
               line_count := some (pyCountChar fd.latin1 '\n' + 1) }

/-- `DocumentProcessor.process_image` (lines 393-403): base info only. -/
def process_image (path : String) (fd : FileData) : ExtractResult :=
  baseResult path fd

/-- `DocumentProcessor.process_docx` (lines 252-282). -/
def process_docx (libs : Libs) (path : String) (fd : FileData) : ExtractResult :=
  let r := baseResult path fd
  if libs.docx then
    match fd.docxData with
    | .ok (paragraphs, tables) =>
        { r with text_content := some (String.intercalate "\n" paragraphs)
                 paragraph_count := some paragraphs.length
                 tables := some tables
                 table_count := some tables.length }
    | .error e => { r with docx_extraction_error := some e }
  else r

/-- `DocumentProcessor.process_pptx` (lines 284-309): per slide, concatenate
each shape text followed by a newline, then strip. -/
def process_pptx (libs : Libs) (path : String) (fd : FileData) : ExtractResult :=
  let r := baseResult path fd
  if libs.pptx then
    match fd.pptxData with
    | .ok slideShapes =>
        let slides := slideShapes.map (fun shapes =>
          pyStrip (String.join (shapes.map (fun t => t ++ "\n"))))
        { r with slides := some slides, slide_count := some slides.length }
    | .error e => { r with pptx_extraction_error := some e }
  else r

/-- `DocumentProcessor.process_xlsx` (lines 311-336). -/
def process_xlsx (libs : Libs) (path : String) (fd : FileData) : ExtractResult :=
  let r := baseResult path fd
  if libs.xlsx then
    match fd.xlsxData with
    | .ok sheets =>
        { r with sheets := some sheets, sheet_count := some sheets.length }
    | .error e => { r with xlsx_extraction_error := some e }
  else r

/-- `DocumentProcessor.process_email` (lines 338-391). -/
def process_email (libs : Libs) (path : String) (fd : FileData) : ExtractResult :=
  let r := baseResult path fd
  if libs.email then
    match fd.emailData with
    | .ok m =>
        { r with headers := some [("From", m.hFrom), ("To", m.hTo),
                                  ("Subject", m.hSubject), ("Date", m.hDate)]
                 body := some m.body
                 attachments := some m.attachments
                 attachment_count := some m.attachments.length }
    | .error e => { r with email_extraction_error := some e }
  else r

/-- `DocumentProcessor.process_pdf` (lines 200-250): per-page text with a
`Page {n}:` header for every page whose extracted text is non-empty, pages
joined with blank lines; `text_content` set only when at least one page
yielded text; independently, image extraction when pdf2image is available. -/
def process_pdf (libs : Libs) (path : String) (fd : FileData) : ExtractResult :=
  let r := baseResult path fd
  let r :=
    match fd.pdfPages with
    | .ok pages =>
        let r := { r with page_count := some pages.length }
        let pdf_text := (pages.enum.filter (fun p => p.2 ≠ "")).map
          (fun p => let n := p.1 + 1; s!"Page {n}:\n" ++ p.2)
        if pdf_text ≠ [] then
          { r with text_content := some (String.intercalate "\n\n" pdf_text) }
        else r
    | .error e => { r with text_extraction_error := some e }
  if libs.pdf2image then
    match fd.pdfImages with
    | .ok image_paths =>
        { r with extracted_images := some image_paths
                 num_images_extracted := some image_paths.length }
    | .error e => { r with image_extraction_error := some e }
  else r

/-- The modelled file store: stored path to file data. -/
structure FS where
  files : List (String × FileData)
  deriving Repr

/-- `os.path.exists` on the modelled store. -/
def FS.lookup (fs : FS) (path : String) : Option FileData :=
  (fs.files.find? (fun pr => pr.1 = path)).map (fun pr => pr.2)

/-- `DocumentProcessor.process_document` (lines 154-178): existence check,
MIME guess from the path, then the dispatch chain. -/
def processor_process_document (libs : Libs) (fs : FS) (file_path : String) : ExtractResult :=
  match fs.lookup file_path with
  | none => { error := some s!"File not found: {file_path}" }
  | some fd =>
      match selectExtractor (get_mime_type file_path) with
      | .pdf => process_pdf libs file_path fd
      | .docx => process_docx libs file_path fd
      | .pptx => process_pptx libs file_path fd
      | .xlsx => process_xlsx libs file_path fd
      | .email => process_email libs file_path fd
      | .image => process_image file_path fd
      | .text => process_text file_path fd
      | .generic => baseResult file_path fd

/-! ## Persistence layer (database.py)

Rows carry the columns of the schema; the wall-clock `created_at` and
`updated_at` columns, filled from `datetime.now()`, are omitted from the
model. `doc_metadata` (the `json.dumps(document_info)` column) is kept as
the structured value it serializes. -/

/-- A row of the `documents` table. -/
structure Document where
  id : String
  file_name : String
  file_path : String
  mime_type : String
  doc_metadata : ExtractResult
  status : String
  deriving DecidableEq, Repr

/-- A row of the `document_contents` table. -/
structure DocumentContent where
  id : String
  analysis : Option String
  extracted_text : Option String
  deriving DecidableEq, Repr

/-- A row of the `analysis_sessions` table. -/
structure AnalysisSession where
  id : String
  summary : Option String
  context : Option String
  deriving DecidableEq, Repr

/-- A row of the `queries` table. -/
structure Query where
  id : Nat
  analysis_id : String
  query_text : String
  response_text : Option String
  deriving DecidableEq, Repr

/-- The embedded relational store: the five tables of database.py, with
`assoc` the `document_analysis_association` table as
(document_id, analysis_id) pairs. -/
structure DB where
  documents : List Document
  contents : List DocumentContent
  sessions : List AnalysisSession
  assoc : List (String × String)
  queries : List Query
  deriving DecidableEq, Repr

/-- `DocumentService.document_exists` (document_service.py lines 195-197). -/
def document_exists (db : DB) (document_id : String) : Bool :=
  db.documents.any (fun d => d.id == document_id)

/-- The dict built by `DocumentService.get_document`
(document_service.py lines 166-193). -/
structure DocDict where
  document_id : String
  file_name : String
  mime_type : String
  file_path : String
  status : String
  analysis : Option String
  extracted_text : Option String
  doc_metadata : ExtractResult
  deriving DecidableEq, Repr

/-- `DocumentService.get_document`: `None` when the id has no Document row;
`analysis` and `extracted_text` are `None` when no DocumentContent row
exists. -/
def get_document (db : DB) (document_id : String) : Option DocDict :=
  match db.documents.find? (fun d => d.id == document_id) with
  | none => none
  | some d =>
      let c := db.contents.find? (fun c => c.id == document_id)
      some { document_id := d.id
             file_name := d.file_name
             mime_type := d.mime_type
             file_path := d.file_path
             status := d.status
             analysis := match c with | some cc => cc.analysis | none => none
             extracted_text := match c with | some cc => cc.extracted_text | none => none
             doc_metadata := d.doc_metadata }

/-! ## Normalization of an extraction result into extracted text
(document_service.py lines 81-114). -/

/-- One sheet serialized as in lines 93-97: a `Sheet: {name}` header line,
then each row tab-joined, `str(cell)` for non-null cells and `""` for null,
each row newline-terminated. -/
def sheetToText (sheet : String × List (List (Option String))) : String :=
  "Sheet: " ++ sheet.1 ++ "\n" ++
    String.join (sheet.2.map (fun row =>
      String.intercalate "\t" (row.map (fun cell => cell.getD "")) ++ "\n"))

/-- The PDF-specific fallback note of lines 103-114. -/
def pdfFallbackText (file_name : String) (d : ExtractResult) : String :=
  let t := "PDF Document: " ++ file_name ++ "\n\n"
  let t :=
    match d.metadata with
    | some kvs => t ++ "Metadata:\n" ++
        String.join (kvs.map (fun kv => kv.1 ++ ": " ++ kv.2 ++ "\n"))
    | none => t
  match d.extracted_images with
  | some imgs =>
      let n := imgs.length
      t ++ s!"\nNote: {n} images were extracted from this PDF." ++
        "\nText extraction is limited for this PDF document."
  | none => t

/-- The if/elif chain of document_service.py lines 82-114 flattening a
structured extraction result into the single extracted-text value. -/
def extract_text (file_name : String) (d : ExtractResult) : String :=
  match d.text_content with
  | some t => t
  | none =>
    match d.content with
    | some t => t
    | none =>
      match d.slides with
      | some slides => String.intercalate "\n\n" slides
      | none =>
        match d.sheets with
        | some sheets => String.intercalate "\n\n" (sheets.map sheetToText)
        | none =>
          match d.body with
          | some b => b
          | none =>
            if d.info.map (fun i => i.mime_type) = some "application/pdf" then
              pdfFallbackText file_name d
            else ""

/-! ## Ingestion orchestrator (document_service.py lines 68-148). -/

/-- The status dict `DocumentService.process_document` returns. -/
inductive ProcResult
  | success (document_id : String)
  | error (document_id : String) (msg : String)
  deriving DecidableEq, Repr

/-- `DocumentService.process_document`: existence check, extraction,
normalization, then one transaction adding the Document and DocumentContent
rows; `db.rollback()` on any exception. `commit` is the persistence oracle:
`none` means `db.commit()` succeeds, `some msg` that it raises with `msg`
(the rollback then leaves the store unchanged). The trailing `Bool` is a
ghost flag: `true` iff control reached the Extraction Dispatcher call. -/
def service_process_document (libs : Libs) (fs : FS) (db : DB)
    (file_path file_name mime_type document_id : String)
    (commit : Option String) : DB × ProcResult × Bool :=
  if (fs.lookup file_path).isNone then
    (db, .error document_id "File not found", false)
  else
    let document_info := processor_process_document libs fs file_path
    let extracted_text := extract_text file_name document_info
    let document : Document :=
      { id := document_id, file_name := file_name, file_path := file_path
        mime_type := mime_type, doc_metadata := document_info, status := "uploaded" }
    let document_content : DocumentContent :=
      { id := document_id, analysis := none, extracted_text := some extracted_text }
    match commit with
    | some msg => (db, .error document_id msg, true)
    | none =>
        ({ db with documents := db.documents ++ [document]
                   contents := db.contents ++ [document_content] },
         .success document_id, true)

/-! ## Document deletion (document_service.py lines 199-225) under the
SQLAlchemy cascade declarations of database.py.

`Document.analysis_sessions` (lines 37-42) declares `cascade="all, delete"`
on the many-to-many relationship, so `session.delete(document)` cascades an
ORM delete to every associated AnalysisSession; `AnalysisSession.documents`
(lines 69-74) declares `cascade="all"`, whose `delete` member cascades back
from a deleted session to its documents; `Document.content` and
`AnalysisSession.queries` carry `delete-orphan`, deleting the content row
and the session's queries. The deleted set is therefore the connected
component of the association graph, computed below by fuelled iteration. -/

/-- One round of cascade propagation through the association table. -/
def cascadeStep (assoc : List (String × String)) :
    List String × List String → List String × List String
  | (docs, sess) =>
    let sess' := (sess ++ (assoc.filter (fun pr => docs.contains pr.1)).map (fun pr => pr.2)).dedup
    let docs' := (docs ++ (assoc.filter (fun pr => sess.contains pr.2)).map (fun pr => pr.1)).dedup
    (docs', sess')

/-- `DocumentService.delete_document`: `false` when the id is unknown;
otherwise the ORM delete with its cascades, then a best-effort file removal
that never affects the already-committed database state. -/
def delete_document (db : DB) (document_id : String) : DB × Bool :=
  if !(document_exists db document_id) then (db, false)
  else
    let fuel := db.documents.length + db.sessions.length + 1
    let deleted := (cascadeStep db.assoc)^[fuel] ([document_id], [])
    let ddocs := deleted.1
    let dsess := deleted.2
    ({ documents := db.documents.filter (fun d => !(ddocs.contains d.id))
       contents := db.contents.filter (fun c => !(ddocs.contains c.id))
       sessions := db.sessions.filter (fun s => !(dsess.contains s.id))
       assoc := db.assoc.filter (fun pr => !(ddocs.contains pr.1) && !(dsess.contains pr.2))
       queries := db.queries.filter (fun q => !(dsess.contains q.analysis_id)) },
     true)

/-! ## Python exception values surfaced by the routers. -/

/-- The exceptions the router bodies can raise; `str()` of each is
`strOfExc`. -/
inductive PyExc
  | http (status_code : Nat) (detail : String)
  | typeError (msg : String)
  | attributeError (msg : String)
  deriving DecidableEq, Repr

/-- Python `str(e)`: Starlette renders `HTTPException` as
`"{status}: {detail}"`; `TypeError` and `AttributeError` render their
message. -/
def strOfExc : PyExc → String
  | .http c d => s!"{c}: {d}"
  | .typeError m => m
  | .attributeError m => m

/-! ## Sessionless query endpoint (query.py lines 21-113). -/

/-- The fixed fallback message of query.py line 83. -/
def apologyMessage : String :=
  "I couldn't find any content in the selected documents. Please try with different documents or check if the documents were processed correctly."

/-- The fixed system instruction of query.py lines 51-61. -/
def systemPrompt : String :=
  "You are an AI assistant specialized in document analysis and question answering. Your task is to provide accurate, concise answers based solely on the content of the provided documents. Follow these guidelines:\n1. Only use information explicitly stated in the documents\n2. If the answer is not in the documents, say so clearly\n3. Cite specific document names when referencing information\n4. Provide direct quotes when appropriate\n5. Structure complex answers with bullet points or numbered lists\n6. Format code snippets, tables, and technical content appropriately\n"

/-- The response dict of the query endpoint (`created_at` omitted).
`promptSent` is a ghost field recording the prompt handed to the generation
capability, `none` when no model call was made. -/
structure QueryResult where
  response : String
  sources : List (String × String)
  promptSent : Option String
  deriving DecidableEq, Repr

/-- The document-collection loop of query.py lines 42-48: resolve every id,
raising 404 on the first miss. -/
def resolveDocs (db : DB) : List String → Except PyExc (List DocDict)
  | [] => .ok []
  | doc_id :: rest =>
    match get_document db doc_id with
    | none => .error (.http 404 s!"Document {doc_id} not found")
    | some d =>
      match resolveDocs db rest with
      | .ok ds => .ok (d :: ds)
      | .error e => .error e

/-- The context-accumulation loop of query.py lines 64-78: a section is
appended only for documents whose `extracted_text` is truthy (present and
non-empty). `i` is the running `enumerate` index. -/
def buildContext : Nat → List DocDict → String
  | _, [] => ""
  | i, d :: ds =>
    let rest := buildContext (i + 1) ds
    match d.extracted_text with
    | some c =>
        if c ≠ "" then
          let n := i + 1
          s!"\n\n--- DOCUMENT {n}: " ++ d.file_name ++ " (ID: " ++ d.document_id ++ ") ---\n"
            ++ c ++ "\n" ++ rest
        else rest
    | none => rest

/-- The body of the `try` block of `query_documents`. -/
def query_documents_core (gen : String → String) (db : DB)
    (document_ids : List String) (query : String) : Except PyExc QueryResult :=
  if document_ids.isEmpty then .error (.http 400 "No documents selected")
  else if query = "" then .error (.http 400 "Query is required")
  else
    match resolveDocs db document_ids with
    | .error e => .error e
    | .ok documents =>
      let document_context := buildContext 0 documents
      let sources := documents.map (fun d => (d.document_id, d.file_name))
      if pyStrip document_context = "" then
        .ok { response := apologyMessage, sources := sources, promptSent := none }
      else
        let prompt := systemPrompt ++ "\n\nDOCUMENT CONTENT:\n" ++ document_context
          ++ "\n\nUSER QUERY: " ++ query
          ++ "\n\nPlease provide a comprehensive answer based only on the information in the documents above."
        .ok { response := gen prompt, sources := sources, promptSent := some prompt }

/-- `query_documents` (query.py lines 21-113): the whole body sits in a
`try` whose `except Exception` re-raises everything, including the 400/404
`HTTPException`s raised inside it, as an `HTTPException(500, str(e))`. -/
def query_documents (gen : String → String) (db : DB)
    (document_ids : List String) (query : String) : Except (Nat × String) QueryResult :=
  match query_documents_core gen db document_ids query with
  | .ok r => .ok r
  | .error e => .error (500, strOfExc e)

/-! ## Session-creation endpoint (analysis.py lines 23-72). -/

/-- The `AnalysisRequest` model (models.py lines 19-21): exactly the fields
`document_ids` and `context`. -/
structure AnalysisRequest where
  document_ids : List String
  context : Option String
  deriving DecidableEq, Repr

/-- The attribute names the `AnalysisRequest` pydantic model declares; an
access to any other name raises `AttributeError`. -/
def analysisRequestFieldNames : List String := ["document_ids", "context"]

/-- The mapped attribute names of the `AnalysisSession` declarative model
(database.py lines 58-77); the default declarative constructor raises
`TypeError` on any keyword outside this list. -/
def analysisSessionMappedNames : List String :=
  ["id", "summary", "context", "created_at", "updated_at", "documents", "queries"]

/-- The keyword names analysis.py lines 46-52 pass to the `AnalysisSession`
constructor. -/
def analysisSessionCtorKwargNames : List String :=
  ["analysis_id", "summary", "context", "created_at", "updated_at"]

/-- The response dict of the session-creation endpoint (`created_at`
omitted). -/
structure AnalysisResponseData where
  analysis_id : String
  summary : String
  insights : List String
  document_count : Nat
  deriving DecidableEq, Repr

/-- The body of the `try` block of `analyze_documents`: existence checks,
document collection, summary synthesis, then the `AnalysisSession(...)`
constructor call. Evaluating that call first evaluates the keyword argument
`context=request.query`; the request model declares no attribute `query`,
so an `AttributeError` is raised there. Were that attribute present, the
constructor itself would reject the unmapped keyword `analysis_id` with a
`TypeError`; and were both passed, the flush would still fail because the
objects appended to `new_session.documents` are plain dicts. `new_uuid`
stands for the generated `uuid.uuid4()` string. -/
def analyze_documents_core (db : DB) (req : AnalysisRequest) (new_uuid : String) :
    Except PyExc (DB × AnalysisResponseData) :=
  match req.document_ids.find? (fun doc_id => !(document_exists db doc_id)) with
  | some doc_id => .error (.http 404 s!"Document {doc_id} not found")
  | none =>
    let documents := req.document_ids.filterMap (get_document db)
    let analysis_id := new_uuid
    let cnt := documents.length
    let summary := s!"Document session with {cnt} document(s)"
    if (analysisRequestFieldNames.find? (fun f => f == "query")).isNone then
      .error (.attributeError "'AnalysisRequest' object has no attribute 'query'")
    else if analysisSessionCtorKwargNames.all (fun k => analysisSessionMappedNames.contains k) then
      let sess : AnalysisSession := { id := analysis_id, summary := some summary, context := req.context }
      .ok ({ db with sessions := db.sessions ++ [sess]
                     assoc := db.assoc ++ req.document_ids.map (fun i => (i, analysis_id)) },
           { analysis_id := analysis_id, summary := summary, insights := [], document_count := cnt })
    else
      .error (.typeError "'analysis_id' is an invalid keyword argument for AnalysisSession")

/-- `analyze_documents` (analysis.py lines 23-72): the `except Exception`
wrapper turns any raised exception, the inner 404 `HTTPException`s
included, into `HTTPException(500, f"Error creating document session: {str(e)}")`;
on any error path the store is left unchanged. -/
def analyze_documents (db : DB) (req : AnalysisRequest) (new_uuid : String) :
    DB × Except (Nat × String) AnalysisResponseData :=
  match analyze_documents_core db req new_uuid with
  | .ok (db', resp) => (db', .ok resp)
  | .error e => (db, .error (500, "Error creating document session: " ++ strOfExc e))

/-! ## Concrete instances used by witnesses and counterexamples. -/

/-- The stored bytes of the spec's round-trip file `"line1\nline2\n"`:
UTF-8 decoding succeeds; the format-library oracles are never consulted by
the text extractor. -/
def sampleTextFile : FileData :=
  { file_size := 12, created_time := "t0", modified_time := "t1"
    utf8 := some "line1\nline2\n", latin1 := "line1\nline2\n"
    pdfPages := .error "not a pdf", pdfImages := .error "not a pdf"
    docxData := .error "not a docx", pptxData := .error "not a pptx"
    xlsxData := .error "not an xlsx", emailData := .error "not an email" }

/-! ## The claims. -/

/-- The six MIME strings the dispatcher matches exactly. -/
def exactDispatchMimes : List String :=
  ["application/pdf",
   "application/vnd.openxmlformats-officedocument.wordprocessingml.document",
   "application/vnd.openxmlformats-officedocument.presentationml.presentation",
   "application/vnd.openxmlformats-officedocument.spreadsheetml.sheet",
   "message/rfc822",
   "application/vnd.ms-outlook"]

/-- Claim C8: for every MIME type string, the extraction dispatcher selects
the extractor by this precedence: exact PDF MIME selects the PDF extractor;
exact Word/PowerPoint/Excel OpenXML MIMEs select the corresponding office
extractor; message/rfc822 or the Outlook MIME selects the email extractor;
when none of those exact matches apply, a MIME starting with image/ selects
the image extractor; failing that, a MIME starting with text/ selects the
text extractor; every other MIME selects the generic metadata-only
fallback. -/
theorem C8_dispatch_precedence (mime : String) :
    (mime = "application/pdf" → selectExtractor mime = .pdf) ∧
    (mime = "application/vnd.openxmlformats-officedocument.wordprocessingml.document" →
      selectExtractor mime = .docx) ∧
    (mime = "application/vnd.openxmlformats-officedocument.presentationml.presentation" →
      selectExtractor mime = .pptx) ∧
    (mime = "application/vnd.openxmlformats-officedocument.spreadsheetml.sheet" →
      selectExtractor mime = .xlsx) ∧
    (mime = "message/rfc822" ∨ mime = "application/vnd.ms-outlook" →
      selectExtractor mime = .email) ∧
    (mime ∉ exactDispatchMimes → pyStartsWith mime "image/" = true →
      selectExtractor mime = .image) ∧
    (mime ∉ exactDispatchMimes → pyStartsWith mime "image/" = false →
      pyStartsWith mime "text/" = true → selectExtractor mime = .text) ∧
    (mime ∉ exactDispatchMimes → pyStartsWith mime "image/" = false →
      pyStartsWith mime "text/" = false → selectExtractor mime = .generic) := by
  have nots : ∀ m : String, m ∉ exactDispatchMimes →
      (¬ m = "application/pdf") ∧
      (¬ m = "application/vnd.openxmlformats-officedocument.wordprocessingml.document") ∧
      (¬ m = "application/vnd.openxmlformats-officedocument.presentationml.presentation") ∧
      (¬ m = "application/vnd.openxmlformats-officedocument.spreadsheetml.sheet") ∧
      (¬ (m = "message/rfc822" ∨ m = "application/vnd.ms-outlook")) := by
    intro m hm
    refine ⟨fun e => hm (by rw [e]; decide), fun e => hm (by rw [e]; decide),
            fun e => hm (by rw [e]; decide), fun e => hm (by rw [e]; decide), fun h => ?_⟩
    rcases h with e | e
    · exact hm (by rw [e]; decide)
    · exact hm (by rw [e]; decide)
  refine ⟨?_, ?_, ?_, ?_, ?_, ?_, ?_, ?_⟩
  · rintro rfl; decide
  · rintro rfl; decide
  · rintro rfl; decide
  · rintro rfl; decide
  · rintro (rfl | rfl) <;> decide
  · intro hnot him
    obtain ⟨n1, n2, n3, n4, n5⟩ := nots mime hnot
    rw [selectExtractor, if_neg n1, if_neg n2, if_neg n3, if_neg n4, if_neg n5, if_pos him]
  · intro hnot him hta
    obtain ⟨n1, n2, n3, n4, n5⟩ := nots mime hnot
    have nim : ¬ (pyStartsWith mime "image/" = true) := by simp [him]
    rw [selectExtractor, if_neg n1, if_neg n2, if_neg n3, if_neg n4, if_neg n5,
      if_neg nim, if_pos hta]
  · intro hnot him hta
    obtain ⟨n1, n2, n3, n4, n5⟩ := nots mime hnot
    have nim : ¬ (pyStartsWith mime "image/" = true) := by simp [him]
    have nta : ¬ (pyStartsWith mime "text/" = true) := by simp [hta]
    rw [selectExtractor, if_neg n1, if_neg n2, if_neg n3, if_neg n4, if_neg n5,
      if_neg nim, if_neg nta]

/-- Witness for C8 at two concrete MIME strings. -/
theorem C8_dispatch_precedence_witness :
    selectExtractor "application/pdf" = Extractor.pdf ∧
    selectExtractor "text/csv" = Extractor.text :=
  ⟨(C8_dispatch_precedence "application/pdf").1 rfl,
   (C8_dispatch_precedence "text/csv").2.2.2.2.2.2.1 (by decide) (by decide) (by decide)⟩

/-- Counterexample to claim C3 as stated: for the uploaded plain-text file
containing `"line1\nline2\n"`, the recorded line count is not 2 — the
source computes `content.count("\n") + 1`, which is 3 here. -/
theorem C3_line_count_cex :
    (process_text "uploads/20240101_notes.txt" sampleTextFile).line_count ≠ some 2 := by
  decide

/-- Claim C3 (amended): the text extractor reads the file as UTF-8, retries
with a Latin-1 fallback on decode failure, never raises past that point,
and records `line_count = content.count("\n") + 1`; for the uploaded
plain-text file whose content is `"line1\nline2\n"` the extraction result
has `line_count == 3` and extracted text equal to `"line1\nline2\n"`. -/
theorem C3_process_text_amended (path : String) (fd : FileData) :
    (∀ c, fd.utf8 = some c →
      (process_text path fd).text_content = some c ∧
      (process_text path fd).line_count = some (pyCountChar c '\n' + 1)) ∧
    (fd.utf8 = none →
      (process_text path fd).text_content = some fd.latin1 ∧
      (process_text path fd).line_count = some (pyCountChar fd.latin1 '\n' + 1)) ∧
    (process_text "uploads/20240101_notes.txt" sampleTextFile).line_count = some 3 ∧
    extract_text "notes.txt" (process_text "uploads/20240101_notes.txt" sampleTextFile)
      = "line1\nline2\n" := by
  refine ⟨fun c hc => ?_, fun hc => ?_, by decide, by decide⟩
  · rw [process_text, hc]; exact ⟨rfl, rfl⟩
  · rw [process_text, hc]; exact ⟨rfl, rfl⟩

/-- Witness for C3 (amended) at the concrete round-trip file. -/
theorem C3_process_text_amended_witness :
    (process_text "uploads/20240101_notes.txt" sampleTextFile).text_content
      = some "line1\nline2\n" :=
  ((C3_process_text_amended "uploads/20240101_notes.txt" sampleTextFile).1
    "line1\nline2\n" rfl).1

/-- Claim C7: the text stored into DocumentContent is produced by checking
the structured result's fields in exactly this priority order, first match
wins: explicit plain-text content (`text_content`, then `content`); slide
texts joined with blank lines; sheets serialized per `sheetToText` joined
with blank lines; email body; the PDF-specific fallback note; the empty
string when none apply. -/
theorem C7_normalization_priority (file_name : String) (d : ExtractResult) :
    (∀ t, d.text_content = some t → extract_text file_name d = t) ∧
    (d.text_content = none → ∀ t, d.content = some t → extract_text file_name d = t) ∧
    (d.text_content = none → d.content = none → ∀ ss, d.slides = some ss →
      extract_text file_name d = String.intercalate "\n\n" ss) ∧
    (d.text_content = none → d.content = none → d.slides = none →
      ∀ sh, d.sheets = some sh →
        extract_text file_name d = String.intercalate "\n\n" (sh.map sheetToText)) ∧
    (d.text_content = none → d.content = none → d.slides = none → d.sheets = none →
      ∀ b, d.body = some b → extract_text file_name d = b) ∧
    (d.text_content = none → d.content = none → d.slides = none → d.sheets = none →
      d.body = none → d.info.map (fun i => i.mime_type) = some "application/pdf" →
        extract_text file_name d = pdfFallbackText file_name d) ∧
    (d.text_content = none → d.content = none → d.slides = none → d.sheets = none →
      d.body = none → ¬(d.info.map (fun i => i.mime_type) = some "application/pdf") →
        extract_text file_name d = "") := by
  refine ⟨fun t ht => ?_, fun h1 t ht => ?_, fun h1 h2 ss hs => ?_,
          fun h1 h2 h3 sh hs => ?_, fun h1 h2 h3 h4 b hb => ?_,
          fun h1 h2 h3 h4 h5 hm => ?_, fun h1 h2 h3 h4 h5 hm => ?_⟩ <;>
    simp_all [extract_text]

/-- Witness for C7 at a concrete slides-only result. -/
theorem C7_normalization_priority_witness :
    extract_text "deck.pptx" { slides := some ["alpha", "beta"] } = "alpha\n\nbeta" :=
  ((C7_normalization_priority "deck.pptx" { slides := some ["alpha", "beta"] }).2.2.1
    rfl rfl ["alpha", "beta"] rfl).trans (by decide)

/-- Claim C4: every invocation of the orchestrator's `process_document`
either leaves the store exactly as it was (reporting an error: the missing
file, or the rolled-back commit), or commits the Document row (with status
`uploaded`) and the DocumentContent row for the given id together — the
store never gains one of the two rows without the other. -/
theorem C4_process_document_atomic (libs : Libs) (fs : FS) (db : DB)
    (file_path file_name mime_type document_id : String) (commit : Option String) :
    ((service_process_document libs fs db file_path file_name mime_type document_id commit).1 = db ∧
     ∃ msg, (service_process_document libs fs db file_path file_name mime_type document_id commit).2.1
       = ProcResult.error document_id msg) ∨
    (∃ d c,
      (service_process_document libs fs db file_path file_name mime_type document_id commit).1
        = { db with documents := db.documents ++ [d], contents := db.contents ++ [c] } ∧
      d.id = document_id ∧ d.status = "uploaded" ∧ c.id = document_id ∧
      (service_process_document libs fs db file_path file_name mime_type document_id commit).2.1
        = ProcResult.success document_id) := by
  unfold service_process_document
  by_cases hfs : (fs.lookup file_path).isNone
  · rw [if_pos hfs]
    exact Or.inl ⟨rfl, "File not found", rfl⟩
  · rw [if_neg hfs]
    cases commit with
    | some msg => exact Or.inl ⟨rfl, msg, rfl⟩
    | none => exact Or.inr ⟨_, _, rfl, rfl, rfl, rfl, rfl⟩

/-- Claim C5: `process_document` on a path the file store does not hold
reports status error and stops: the Extraction Dispatcher is never invoked
(the ghost flag stays `false`), the store is unchanged — so no
DocumentContent row appears and the Document row stays absent. -/
theorem C5_missing_file_stops (libs : Libs) (fs : FS) (db : DB)
    (file_path file_name mime_type document_id : String) (commit : Option String)
    (h : fs.lookup file_path = none) :
    service_process_document libs fs db file_path file_name mime_type document_id commit
      = (db, ProcResult.error document_id "File not found", false) ∧
    (document_exists db document_id = false →
      document_exists
        (service_process_document libs fs db file_path file_name mime_type document_id commit).1
        document_id = false) := by
  have hN : (fs.lookup file_path).isNone = true := by rw [h]; rfl
  have hmain :
      service_process_document libs fs db file_path file_name mime_type document_id commit
        = (db, ProcResult.error document_id "File not found", false) := by
    unfold service_process_document; rw [if_pos hN]
  exact ⟨hmain, fun habs => by rw [hmain]; exact habs⟩

/-- Witness for C5: an empty file store, an empty database. -/
theorem C5_missing_file_stops_witness :
    service_process_document ⟨true, true, true, true, true⟩ ⟨[]⟩ ⟨[], [], [], [], []⟩
      "uploads/ghost.txt" "ghost.txt" "text/plain" "doc-1" none
      = (⟨[], [], [], [], []⟩, ProcResult.error "doc-1" "File not found", false) :=
  (C5_missing_file_stops ⟨true, true, true, true, true⟩ ⟨[]⟩ ⟨[], [], [], [], []⟩
    "uploads/ghost.txt" "ghost.txt" "text/plain" "doc-1" none rfl).1

/-- A Document row with its `mime_type` column blanked, for comparing two
rows up to that column. -/
def stripMime (d : Document) : Document := { d with mime_type := "" }

/-- Claim C10: two runs of the orchestrator's `process_document` that differ
only in the `mime_type` argument behave identically except for the
`mime_type` column stored on the Document row: extractor selection reads
`selectExtractor (get_mime_type file_path)`, a function of the path alone,
so the extraction result (`doc_metadata`), the stored extracted text, the
status and every other table agree between the runs. -/
theorem C10_mime_only_affects_column (libs : Libs) (fs : FS) (db : DB)
    (file_path file_name m1 m2 document_id : String) (commit : Option String) :
    (service_process_document libs fs db file_path file_name m1 document_id commit).1.contents
      = (service_process_document libs fs db file_path file_name m2 document_id commit).1.contents ∧
    (service_process_document libs fs db file_path file_name m1 document_id commit).1.documents.map stripMime
      = (service_process_document libs fs db file_path file_name m2 document_id commit).1.documents.map stripMime ∧
    (service_process_document libs fs db file_path file_name m1 document_id commit).1.sessions
      = (service_process_document libs fs db file_path file_name m2 document_id commit).1.sessions ∧
    (service_process_document libs fs db file_path file_name m1 document_id commit).1.assoc
      = (service_process_document libs fs db file_path file_name m2 document_id commit).1.assoc ∧
    (service_process_document libs fs db file_path file_name m1 document_id commit).1.queries
      = (service_process_document libs fs db file_path file_name m2 document_id commit).1.queries ∧
    (service_process_document libs fs db file_path file_name m1 document_id commit).2
      = (service_process_document libs fs db file_path file_name m2 document_id commit).2 := by
  unfold service_process_document
  by_cases hfs : fs.lookup file_path = none
  · simp [hfs]
  · have hcond : ¬ ((fs.lookup file_path).isNone = true) := by
      cases h : fs.lookup file_path with
      | none => exact absurd h hfs
      | some _ => simp
    simp only [if_neg hcond]
    cases commit with
    | some msg => simp
    | none => refine ⟨rfl, ?_, rfl, rfl, rfl, rfl⟩; simp [stripMime]

/-- When every resolved document's extracted text is absent or empty, the
context-accumulation loop contributes nothing, at any enumeration index. -/
theorem buildContext_of_empty (docs : List DocDict)
    (h : ∀ d ∈ docs, d.extracted_text = none ∨ d.extracted_text = some "") :
    ∀ i, buildContext i docs = "" := by
  induction docs with
  | nil => intro i; rfl
  | cons d ds ih =>
    intro i
    rcases h d (List.mem_cons_self d ds) with he | he <;>
      simp [buildContext, he, ih (fun x hx => h x (List.mem_cons_of_mem d hx))]

/-- Claim C6: for a query over a non-empty id list that fully resolves,
when no resolved document has non-empty extracted text, the endpoint
returns the fixed apology message together with the
(document_id, file_name) pairs of all the given documents, and hands no
prompt to the generation capability (`promptSent = none`). -/
theorem C6_empty_content_apology (gen : String → String) (db : DB)
    (document_ids : List String) (query : String) (docs : List DocDict)
    (hne : document_ids ≠ [])
    (hq : query ≠ "")
    (hres : resolveDocs db document_ids = .ok docs)
    (hempty : ∀ d ∈ docs, d.extracted_text = none ∨ d.extracted_text = some "") :
    query_documents gen db document_ids query =
      .ok { response := apologyMessage
            sources := docs.map (fun d => (d.document_id, d.file_name))
            promptSent := none } := by
  have hE : document_ids.isEmpty = false := by
    cases document_ids with
    | nil => exact absurd rfl hne
    | cons a as => rfl
  have hctx : buildContext 0 docs = "" := buildContext_of_empty docs hempty 0
  unfold query_documents query_documents_core
  rw [hE, hres]
  simp [hq, hctx, pyStrip]

/-- Store with one document whose DocumentContent holds empty extracted
text. -/
def emptyTextDB : DB :=
  { documents := [{ id := "d1", file_name := "a.txt", file_path := "uploads/a.txt"
                    mime_type := "text/plain", doc_metadata := {}, status := "uploaded" }]
    contents := [{ id := "d1", analysis := none, extracted_text := some "" }]
    sessions := [], assoc := [], queries := [] }

/-- The dict `get_document` produces for `d1` of `emptyTextDB`. -/
def emptyTextDoc : DocDict :=
  { document_id := "d1", file_name := "a.txt", mime_type := "text/plain"
    file_path := "uploads/a.txt", status := "uploaded"
    analysis := none, extracted_text := some "", doc_metadata := {} }

/-- Witness for C6: one resolvable document with empty extracted text. -/
theorem C6_empty_content_apology_witness :
    query_documents (fun _ => "model output") emptyTextDB ["d1"] "what is X?" =
      .ok { response := apologyMessage
            sources := [emptyTextDoc].map (fun d => (d.document_id, d.file_name))
            promptSent := none } :=
  C6_empty_content_apology (fun _ => "model output") emptyTextDB ["d1"] "what is X?"
    [emptyTextDoc] (by decide) (by decide) (by decide) (by decide)

/-- Every branch of the PDF extractor keeps the base metadata. -/
theorem process_pdf_info (libs : Libs) (path : String) (fd : FileData) :
    (process_pdf libs path fd).info = some (get_file_info path fd) := by
  unfold process_pdf baseResult
  cases hp : fd.pdfPages <;> cases hi : fd.pdfImages <;> cases hb : libs.pdf2image <;>
    simp [hp, hi, hb] <;> split_ifs <;> rfl

/-- Every branch of the Word extractor keeps the base metadata. -/
theorem process_docx_info (libs : Libs) (path : String) (fd : FileData) :
    (process_docx libs path fd).info = some (get_file_info path fd) := by
  unfold process_docx baseResult
  cases hb : libs.docx <;> cases hd : fd.docxData <;> simp [hb, hd]

/-- Every branch of the PowerPoint extractor keeps the base metadata. -/
theorem process_pptx_info (libs : Libs) (path : String) (fd : FileData) :
    (process_pptx libs path fd).info = some (get_file_info path fd) := by
  unfold process_pptx baseResult
  cases hb : libs.pptx <;> cases hd : fd.pptxData <;> simp [hb, hd]

/-- Every branch of the Excel extractor keeps the base metadata. -/
theorem process_xlsx_info (libs : Libs) (path : String) (fd : FileData) :
    (process_xlsx libs path fd).info = some (get_file_info path fd) := by
  unfold process_xlsx baseResult
  cases hb : libs.xlsx <;> cases hd : fd.xlsxData <;> simp [hb, hd]

/-- Every branch of the email extractor keeps the base metadata. -/
theorem process_email_info (libs : Libs) (path : String) (fd : FileData) :
    (process_email libs path fd).info = some (get_file_info path fd) := by
  unfold process_email baseResult
  cases hb : libs.email <;> cases hd : fd.emailData <;> simp [hb, hd]

/-- Both branches of the text extractor keep the base metadata. -/
theorem process_text_info (path : String) (fd : FileData) :
    (process_text path fd).info = some (get_file_info path fd) := by
  unfold process_text baseResult
  cases hu : fd.utf8 <;> simp [hu]

/-- Claim C9: for every MIME type and every stored file, extraction returns
a result carrying the base file metadata whatever the availability flags
and whatever the parsing-library outcomes (so extractor unavailability or
failure never loses the metadata nor raises); and when the selected
extractor's library is unavailable, the result is exactly the base
metadata, with no structured format-specific fields. -/
theorem C9_metadata_degradation (libs : Libs) (fs : FS) (path : String) (fd : FileData)
    (hex : fs.lookup path = some fd) :
    (processor_process_document libs fs path).info = some (get_file_info path fd) ∧
    (selectExtractor (get_mime_type path) = .docx → libs.docx = false →
      processor_process_document libs fs path = baseResult path fd) ∧
    (selectExtractor (get_mime_type path) = .pptx → libs.pptx = false →
      processor_process_document libs fs path = baseResult path fd) ∧
    (selectExtractor (get_mime_type path) = .xlsx → libs.xlsx = false →
      processor_process_document libs fs path = baseResult path fd) ∧
    (selectExtractor (get_mime_type path) = .email → libs.email = false →
      processor_process_document libs fs path = baseResult path fd) := by
  refine ⟨?_, fun hsel hflag => ?_, fun hsel hflag => ?_, fun hsel hflag => ?_,
          fun hsel hflag => ?_⟩
  · unfold processor_process_document
    rw [hex]
    cases hsel : selectExtractor (get_mime_type path) <;>
      simp [hsel, process_pdf_info, process_docx_info, process_pptx_info,
        process_xlsx_info, process_email_info, process_text_info, baseResult, process_image]
  · unfold processor_process_document
    rw [hex, hsel]
    simp [process_docx, hflag]
  · unfold processor_process_document
    rw [hex, hsel]
    simp [process_pptx, hflag]
  · unfold processor_process_document
    rw [hex, hsel]
    simp [process_xlsx, hflag]
  · unfold processor_process_document
    rw [hex, hsel]
    simp [process_email, hflag]

/-- Witness for C9: a Word file with every parsing library unavailable. -/
theorem C9_metadata_degradation_witness :
    processor_process_document ⟨false, false, false, false, false⟩
      ⟨[("uploads/r.docx", sampleTextFile)]⟩ "uploads/r.docx"
      = baseResult "uploads/r.docx" sampleTextFile :=
  (C9_metadata_degradation ⟨false, false, false, false, false⟩
      ⟨[("uploads/r.docx", sampleTextFile)]⟩ "uploads/r.docx" sampleTextFile rfl).2.1
    (by decide) rfl

/-- Store used to exhibit the delete cascade: one document `d1` with
content, one session `s1` containing `d1`, one query in `s1`. -/
def cascadeDB : DB :=
  { documents := [{ id := "d1", file_name := "a.txt", file_path := "uploads/a.txt"
                    mime_type := "text/plain", doc_metadata := {}, status := "uploaded" }]
    contents := [{ id := "d1", analysis := none, extracted_text := some "hello" }]
    sessions := [{ id := "s1", summary := some "Document session with 1 document(s)"
                   context := some "ctx" }]
    assoc := [("d1", "s1")]
    queries := [{ id := 1, analysis_id := "s1", query_text := "q", response_text := some "a" }] }

/-- Claim C1 evaluated at the failing input: deleting `d1` does remove its
DocumentContent row and its association rows, but — because
`Document.analysis_sessions` declares `cascade="all, delete"` on the
many-to-many relationship — it also deletes the session `s1` (and, through
`delete-orphan`, the session's queries), contradicting the claim that a
Session is never deleted. -/
theorem C1_delete_document_deletes_session :
    delete_document cascadeDB "d1"
      = ({ documents := [], contents := [], sessions := [], assoc := [], queries := [] }, true) := by
  decide

/-- Store used to exhibit the session-creation failure: one document `d1`. -/
def sessionDB : DB :=
  { documents := [{ id := "d1", file_name := "a.txt", file_path := "uploads/a.txt"
                    mime_type := "text/plain", doc_metadata := {}, status := "uploaded" }]
    contents := [{ id := "d1", analysis := none, extracted_text := some "hello" }]
    sessions := [], assoc := [], queries := [] }

/-- Claim C2 evaluated at the failing inputs: with every id resolving, the
endpoint still fails — evaluating `context=request.query` raises
`AttributeError` (the request model declares only `document_ids` and
`context`), which the catch-all turns into HTTP 500 — and creates no
Session row; and with a missing id, the inner 404 is likewise re-wrapped
into a 500 rather than surfacing as a NotFoundError. -/
theorem C2_create_session_always_fails :
    analyze_documents sessionDB { document_ids := ["d1"], context := some "ctx" } "sess-1"
      = (sessionDB, .error (500,
          "Error creating document session: 'AnalysisRequest' object has no attribute 'query'")) ∧
    analyze_documents sessionDB { document_ids := ["d1", "dX"], context := some "ctx" } "sess-2"
      = (sessionDB, .error (500,
          "Error creating document session: 404: Document dX not found")) := by
  exact ⟨by decide, by decide⟩

end AIDoc
